import Mathlib

/-! # Verification of the vite-notion-demo utility modules

Shallow embedding of `src/utils/api.js` (class `NotionAPI`) and
`src/utils/storage.js` (class `StorageManager`) from the
`examples/frontend/vite-notion-demo` application, together with theorems
about the retry, error-classification, credential and cache-expiration
behaviour of those modules. -/

/-- Prefix test on character lists (helper for the substring test). -/
def listIsPrefix : List Char → List Char → Bool
  | [], _ => true
  | _ :: _, [] => false
  | a :: as, b :: bs => a == b && listIsPrefix as bs

/-- Occurrence test on character lists (helper for the substring test). -/
def listHasInfix : List Char → List Char → Bool
  | [], pat => pat.isEmpty
  | c :: rest, pat => listIsPrefix pat (c :: rest) || listHasInfix rest pat

/-- JavaScript `String.prototype.includes`: `true` iff `pat` occurs in `s`. -/
def containsSubstr (s pat : String) : Bool :=
  listHasInfix s.data pat.data

/-- JavaScript `x || dflt` where `x` is a possibly-absent string: the string
when present and non-empty (truthy), otherwise the default. -/
def jsOrStr (o : Option String) (dflt : String) : String :=
  match o with
  | some s => if s = "" then dflt else s
  | none => dflt

/-- JavaScript truthiness of a number-or-null field: `null`/absent and `0`
are falsy, every other number is truthy. -/
def jsTruthyNum (o : Option Nat) : Bool :=
  match o with
  | some n => n != 0
  | none => false

namespace NotionAPI

/-- The parsed JSON body of a Notion API response, restricted to the
machine-readable fields that `formatError` and the spec ever mention
(`data?.message`, and the upstream `code`). -/
structure Body where
  code : Option String := none
  message : Option String := none
deriving DecidableEq

/-- An axios HTTP response as the client sees it: `status` and parsed `data`. -/
structure Response where
  status : Nat
  data : Body
deriving DecidableEq

/-- A JavaScript error value, with the properties the client inspects: the
`message` of every `Error`, and the `code` and `response` properties axios
puts on its errors.  A plain `new Error(msg)` has no `code` and no
`response`, which the embedding renders as `none`. -/
structure JsError where
  message : String
  code : Option String := none
  response : Option Response := none
deriving DecidableEq

/-- `NotionAPI.formatError`, branch for errors without a `response`
(api.js lines 77-99): timeout, connection refused, `ERR_NETWORK` (whose
message depends on whether the hostname is a dev host) and the generic
fallback interpolating `error.message || 'Unable to connect to Notion API'`. -/
def formatNetworkMessage (isDev : Bool) (code : Option String) (msg : String) : String :=
  if code == some "ECONNABORTED" || containsSubstr msg "timeout" then
    "Request timeout: The API request took too long to complete"
  else if containsSubstr msg "ERR_CONNECTION_REFUSED" then
    "Connection refused: Unable to reach the Notion API servers"
  else if code == some "ERR_NETWORK" then
    if isDev then
      "CORS Error: Direct API requests from localhost are blocked. Please restart the dev server or deploy to a hosted domain."
    else
      "Network Error: Unable to connect to Notion API. Please check your token and internet connection."
  else
    "Connection error: " ++ jsOrStr (some msg) "Unable to connect to Notion API"
      ++ ". Please check your API token and try again."

/-- `NotionAPI.formatError`, the `switch (status)` on a present response
(api.js lines 102-125).  Note that the cases are exactly 400, 401, 403,
404, 409, 429 and 500/502/503/504; every other status (422 included)
falls to the `default` arm. -/
def formatStatusMessage (status : Nat) (data : Body) : String :=
  if status = 400 then
    "Bad Request: " ++ jsOrStr data.message "Invalid request parameters"
  else if status = 401 then
    "Authentication failed: Please check your API token"
  else if status = 403 then
    "Access denied: Insufficient permissions for this resource"
  else if status = 404 then
    "Resource not found: The requested item does not exist or is not accessible"
  else if status = 409 then
    "Conflict: " ++ jsOrStr data.message "Resource conflict"
  else if status = 429 then
    "Rate limit exceeded: Please wait before making more requests"
  else if status = 500 ∨ status = 502 ∨ status = 503 ∨ status = 504 then
    "Server error: Notion API is temporarily unavailable"
  else
    "API Error (" ++ toString status ++ "): " ++ jsOrStr data.message "Unknown error occurred"

/-- `NotionAPI.formatError` (api.js lines 76-126): every branch returns a
fresh plain `Error` whose only payload is a message; the returned error
carries no `code` and no `response` property. -/
def formatError (isDev : Bool) (e : JsError) : JsError :=
  match e.response with
  | none => { message := formatNetworkMessage isDev e.code e.message }
  | some r => { message := formatStatusMessage r.status r.data }

/-- What the network does on one attempt: either an HTTP response (of any
status) or a network-level failure (DNS, connection refused, timeout, …)
carrying the axios error `code` and `message`. -/
inductive AttemptOutcome where
  | response (status : Nat) (data : Body)
  | networkFailure (code : Option String) (message : String)
deriving DecidableEq

/-- One `await this.client(config)`: axios resolves exactly for 2xx
statuses and otherwise rejects with an error carrying the response; the
response interceptor (api.js lines 61-70) passes successes through
unchanged and replaces every error by `this.formatError(error)`. -/
def clientCall (isDev : Bool) (o : AttemptOutcome) : Except JsError Response :=
  match o with
  | .response status data =>
    if 200 ≤ status ∧ status < 300 then .ok ⟨status, data⟩
    else .error (formatError isDev
      { message := "Request failed with status code " ++ toString status,
        response := some ⟨status, data⟩ })
  | .networkFailure code msg =>
    .error (formatError isDev { message := msg, code := code })

/-- The retry test of `makeRequest` (api.js line 139):
`error.response?.status >= 500 || error.response?.status === 429`.  When
the caught error has no `response` property both comparisons are against
`undefined` and evaluate to `false`. -/
def retryableError (e : JsError) : Bool :=
  match e.response with
  | some r => decide (500 ≤ r.status) || r.status == 429
  | none => false

/-- Instrumented result of one `makeRequest` run: the value returned or
the error thrown, the number of network attempts made, and the list of
backoff delays (in ms) awaited, in order. -/
structure RunResult where
  result : Except JsError Body
  attempts : Nat
  delays : List Nat

/-- `NotionAPI.makeRequest` (api.js lines 131-147), with the recursion fed
by explicit fuel:  the source recursion bumps `attempt` and only recurses
while `attempt < this.retryAttempts`, so from `attempt = 1` a fuel of
`retryAttempts + 1` is never exhausted.  On a resolved call it returns
`response.data`; on a caught error that passes the retry test it awaits
`this.retryDelay * attempt` and recurses with `attempt + 1`; otherwise it
rethrows the caught (already formatted) error. -/
def makeRequestAux (isDev : Bool) (retryAttempts retryDelay : Nat)
    (outcomes : Nat → AttemptOutcome) (attempt : Nat) : Nat → RunResult
  | 0 => ⟨.error { message := "out of fuel" }, 0, []⟩
  | fuel + 1 =>
    match clientCall isDev (outcomes attempt) with
    | .ok r => ⟨.ok r.data, 1, []⟩
    | .error e =>
      if attempt < retryAttempts ∧ retryableError e then
        let rest := makeRequestAux isDev retryAttempts retryDelay outcomes (attempt + 1) fuel
        ⟨rest.result, rest.attempts + 1, retryDelay * attempt :: rest.delays⟩
      else ⟨.error e, 1, []⟩

/-- `makeRequest(config)` as called by the endpoint methods: `attempt`
starts at its default `1`; `retryAttempts = 3` and `retryDelay = 1000`
are set by the constructor (api.js lines 19-20) but are kept as
parameters here. -/
def makeRequest (isDev : Bool) (retryAttempts retryDelay : Nat)
    (outcomes : Nat → AttemptOutcome) : RunResult :=
  makeRequestAux isDev retryAttempts retryDelay outcomes 1 (retryAttempts + 1)

/-- The mutable state of a `NotionAPI` instance that `setToken` touches
(api.js lines 12-42): the stored token, the fixed `Notion-Version` string,
and the default headers of the axios instance.  `networkAttempts` counts
the requests issued through the instance, so that "no network effect" is
visible in the model. -/
structure ClientState where
  token : Option String
  version : String
  contentTypeHeader : Option String
  authorizationHeader : Option String
  notionVersionHeader : Option String
  networkAttempts : Nat
deriving DecidableEq

/-- The constructor's state (api.js lines 12-33): `token = null`,
`version = '2022-06-28'`, a JSON content type, no authorization headers
and no request issued yet. -/
def initialClient : ClientState :=
  { token := none, version := "2022-06-28",
    contentTypeHeader := some "application/json",
    authorizationHeader := none, notionVersionHeader := none,
    networkAttempts := 0 }

/-- `NotionAPI.setToken` (api.js lines 38-42): three plain assignments —
store the token, set the default `Authorization` header to `Bearer <token>`
and the default `Notion-Version` header to `this.version`.  The body
performs no request and contains no validation, so it cannot fail. -/
def setToken (t : String) (s : ClientState) : ClientState :=
  { s with token := some t,
           authorizationHeader := some ("Bearer " ++ t),
           notionVersionHeader := some s.version }

end NotionAPI

namespace StorageManager

/-- The JSON object `StorageManager.set` writes under a key
(storage.js lines 129-133): the caller's value, a creation timestamp and
an absolute expiration time or `null`.  The quota-fallback write
(line 144) stores `{ value }` alone, i.e. both optional fields absent. -/
structure StoredItem (α : Type) where
  value : α
  timestamp : Option Nat
  expires : Option Nat
deriving DecidableEq

/-- The app-prefixed portion of `localStorage`, keyed by the un-prefixed
key (the constant app prefix `notion-api-demo:` makes `getKey`
injective, so it is dropped). -/
abbrev Store (α : Type) := List (String × StoredItem α)

/-- `localStorage.getItem` composed with `JSON.parse`, for items written
by `set` (all items in the model are well formed). -/
def lookupItem {α : Type} (store : Store α) (k : String) : Option (StoredItem α) :=
  (store.find? fun p => p.1 == k).map Prod.snd

/-- `localStorage.setItem` (overwrites any prior entry under the key). -/
def setItem {α : Type} (store : Store α) (k : String) (item : StoredItem α) : Store α :=
  (k, item) :: store.filter fun p => !(p.1 == k)

/-- `localStorage.removeItem`. -/
def removeItem {α : Type} (store : Store α) (k : String) : Store α :=
  store.filter fun p => !(p.1 == k)

/-- The expiration test `parsed.expires && Date.now() > parsed.expires`
(storage.js line 107): the `expires` field must be truthy (present and
nonzero) and strictly in the past. -/
def expiredAt (e : Option Nat) (now : Nat) : Bool :=
  jsTruthyNum e && decide (e.getD 0 < now)

/-- `StorageManager.get` (storage.js lines 95-117), on the
localStorage-supported path with every stored item written by `set`:
look the key up; return the default (modelled as `none`) when absent;
when the item carries a truthy `expires` in the past, remove it and
return the default; otherwise return the stored `value`.  The store
after the call is returned alongside, to make the lazy purge visible. -/
def get {α : Type} (store : Store α) (k : String) (now : Nat) :
    Option α × Store α :=
  match lookupItem store k with
  | none => (none, store)
  | some item =>
    if expiredAt item.expires now then (none, removeItem store k)
    else (some item.value, store)

/-- The keep-test of `StorageManager.cleanup` (storage.js lines 235-257)
on one item: expired items are removed; items older than 24 hours whose
key contains `cache:` or `temp:` are removed; everything else is kept. -/
def keepOnCleanup {α : Type} (now : Nat) (k : String) (item : StoredItem α) : Bool :=
  if expiredAt item.expires now then false
  else if jsTruthyNum item.timestamp && decide (86400000 < now - item.timestamp.getD 0) then
    !(containsSubstr k "cache:" || containsSubstr k "temp:")
  else true

/-- `StorageManager.cleanup` (storage.js lines 223-263) over the app's
keys. -/
def cleanup {α : Type} (store : Store α) (now : Nat) : Store α :=
  store.filter fun p => keepOnCleanup now p.1 p.2

/-- `StorageManager.set` (storage.js lines 122-152), localStorage-supported
path.  `firstWrite` is the outcome of the first `localStorage.setItem`
(`none` = success, `some name` = it threw an error whose `name` is given);
`secondWrite` tells whether the bare retry write after `cleanup`
succeeds.  A truthy `expiresIn` yields `expires = now + expiresIn`,
otherwise `expires = null`; the quota-fallback retry stores `{ value }`
with no `timestamp` and no `expires`. -/
def set {α : Type} (store : Store α) (k : String) (v : α) (expiresIn : Option Nat)
    (now : Nat) (firstWrite : Option String) (secondWrite : Bool) :
    Bool × Store α :=
  let item : StoredItem α :=
    { value := v, timestamp := some now,
      expires := if jsTruthyNum expiresIn then some (now + expiresIn.getD 0) else none }
  match firstWrite with
  | none => (true, setItem store k item)
  | some name =>
    if name = "QuotaExceededError" then
      if secondWrite then
        (true, setItem (cleanup store now) k { value := v, timestamp := none, expires := none })
      else (false, cleanup store now)
    else (false, store)

end StorageManager

namespace NotionAPI

/-- Every error that reaches `makeRequest`'s catch block went through the
response interceptor, i.e. through `formatError`, and therefore carries no
`response` property. -/
theorem clientCall_error_response_none (isDev : Bool) (o : AttemptOutcome)
    (e : JsError) (h : clientCall isDev o = .error e) : e.response = none := by
  cases o with
  | response status data =>
    simp only [clientCall] at h
    by_cases hs : 200 ≤ status ∧ status < 300
    · rw [if_pos hs] at h
      exact Except.noConfusion h
    · rw [if_neg hs] at h
      injection h with h2
      rw [← h2]
      rfl
  | networkFailure code msg =>
    simp only [clientCall] at h
    injection h with h2
    rw [← h2]
    rfl

/-- The retry branch of `makeRequest` is unreachable: the caught error is
always a `formatError` product without `response`, so the retry test is
`false` and the run consists of exactly the first attempt. -/
theorem makeRequest_run (isDev : Bool) (retryAttempts retryDelay : Nat)
    (outcomes : Nat → AttemptOutcome) :
    makeRequest isDev retryAttempts retryDelay outcomes =
      ⟨match clientCall isDev (outcomes 1) with
        | .ok r => .ok r.data
        | .error e => .error e, 1, []⟩ := by
  unfold makeRequest makeRequestAux
  cases h : clientCall isDev (outcomes 1) with
  | ok r => rfl
  | error e =>
    have hr : retryableError e = false := by
      unfold retryableError
      rw [clientCall_error_response_none isDev (outcomes 1) e h]
    simp [hr]

end NotionAPI

namespace StorageManager

/-- `setItem` followed by a lookup of the same key finds the new item. -/
theorem lookupItem_setItem_self {α : Type} (store : Store α) (k : String)
    (item : StoredItem α) : lookupItem (setItem store k item) k = some item := by
  simp [lookupItem, setItem, List.find?]

end StorageManager

namespace StorageManager

/-- Removing a key makes a subsequent lookup of that key miss. -/
theorem lookupItem_removeItem_self {α : Type} (store : Store α) (k : String) :
    lookupItem (removeItem store k) k = none := by
  unfold lookupItem removeItem
  induction store with
  | nil => rfl
  | cons p rest ih =>
    by_cases h : p.1 == k
    · simp [List.filter_cons, h]
    · simp only [List.filter_cons, h]
      simp [List.find?, h]

end StorageManager

section ClaimTheorems

open NotionAPI

/-- C1 (counterexample): a request whose every attempt receives status 503
makes exactly `1` network attempt, not the claimed `1 + maxRetries = 4`:
the response interceptor replaces the axios error by a plain `Error`
without a `response` property, so the retry test of `makeRequest` never
fires (and even its intended bound `attempt < retryAttempts` would cap the
total at 3, not 4). -/
theorem persistent503_attempts_one_not_four :
    (makeRequest false 3 1000 (fun _ => .response 503 {})).attempts = 1 ∧
    (makeRequest false 3 1000 (fun _ => .response 503 {})).attempts ≠ 1 + 3 := by
  constructor <;> decide

/-- C1 (amended): for every request whose first attempt receives a 429 or
5xx status, `makeRequest` makes exactly one network attempt, awaits no
backoff delay, and throws the classified (formatted) error of that single
attempt. -/
theorem makeRequest_retryable_status_single_attempt
    (isDev : Bool) (rd : Nat) (outcomes : Nat → AttemptOutcome)
    (status : Nat) (data : Body)
    (h1 : outcomes 1 = .response status data)
    (h2 : status = 429 ∨ 500 ≤ status) :
    makeRequest isDev 3 rd outcomes =
      ⟨.error { message := formatStatusMessage status data }, 1, []⟩ := by
  rw [makeRequest_run, h1]
  have hno : ¬ (200 ≤ status ∧ status < 300) := by
    rcases h2 with h | h <;> omega
  simp [clientCall, hno, formatError]

/-- C1 witness: the theorem applied to the run whose every attempt is a
429 response. -/
theorem makeRequest_retryable_status_single_attempt_witness :
    makeRequest false 3 1000 (fun _ => .response 429 {}) =
      ⟨.error { message := formatStatusMessage 429 {} }, 1, []⟩ :=
  makeRequest_retryable_status_single_attempt false 1000
    (fun _ => .response 429 {}) 429 {} rfl (Or.inl rfl)

/-- C2 (counterexample): a request whose every attempt fails at network
level with a timeout is not retried at all: one attempt, no backoff
delay.  The retry test reads `error.response?.status`, which is absent
both on the raw network error and on the formatted error. -/
theorem timeout_failure_not_retried :
    (makeRequest false 3 1000
      (fun _ => .networkFailure (some "ECONNABORTED") "timeout of 30000ms exceeded")).attempts = 1 ∧
    (makeRequest false 3 1000
      (fun _ => .networkFailure (some "ECONNABORTED") "timeout of 30000ms exceeded")).delays = [] := by
  constructor <;> decide

/-- C2 (amended): every request whose first attempt fails at network level
(no HTTP response) makes exactly one attempt and throws the classified
network error; no retry and no backoff happen. -/
theorem makeRequest_network_failure_single_attempt
    (isDev : Bool) (ra rd : Nat) (outcomes : Nat → AttemptOutcome)
    (code : Option String) (msg : String)
    (h : outcomes 1 = .networkFailure code msg) :
    makeRequest isDev ra rd outcomes =
      ⟨.error { message := formatNetworkMessage isDev code msg }, 1, []⟩ := by
  rw [makeRequest_run, h]
  simp [clientCall, formatError]

/-- C2 witness: the theorem applied to a DNS-resolution failure. -/
theorem makeRequest_network_failure_single_attempt_witness :
    makeRequest false 3 1000
        (fun _ => .networkFailure none "getaddrinfo ENOTFOUND api.notion.com") =
      ⟨.error { message :=
        formatNetworkMessage false none "getaddrinfo ENOTFOUND api.notion.com" }, 1, []⟩ :=
  makeRequest_network_failure_single_attempt false 3 1000
    (fun _ => .networkFailure none "getaddrinfo ENOTFOUND api.notion.com")
    none "getaddrinfo ENOTFOUND api.notion.com" rfl

/-- C3 (code evaluation at the failing input): on the attempt sequence
503, 503, 200 the code raises `Server error: Notion API is temporarily
unavailable` after exactly one attempt, instead of retrying twice and
returning the parsed body of the third attempt as the retry logic of
`makeRequest` (and the spec) intend. -/
theorem makeRequest_503_503_200_raises_after_one_attempt :
    makeRequest false 3 1000
        (fun i => if i ≤ 2 then .response 503 {} else .response 200 {}) =
      ⟨.error { message := "Server error: Notion API is temporarily unavailable" }, 1, []⟩ := by
  rw [makeRequest_run]
  rfl

end ClaimTheorems

section ClaimTheoremsB

open NotionAPI

/-- C4 (counterexample): a 422 response is not classified by a dedicated
branch: the `switch` has no 422 case, so the raised error is the generic
default `API Error (422)` message — the same catch-all used for any
unlisted status — and mentions nothing validation-specific. -/
theorem status422_generic_classification :
    (makeRequest false 3 1000 (fun _ => .response 422 {})).result =
      .error { message := "API Error (422): Unknown error occurred" } ∧
    formatStatusMessage 422 {} =
      "API Error (" ++ toString (422 : Nat) ++ "): " ++ jsOrStr none "Unknown error occurred" ∧
    containsSubstr (formatStatusMessage 422 {}) "Validation" = false := by
  refine ⟨rfl, rfl, ?_⟩
  decide

/-- C4 (amended): for a first attempt answered with 400, 401, 403, 404 or
409, `makeRequest` makes exactly one network attempt (no retry) and raises
that status's dedicated classified error; a 422 answer also makes exactly
one attempt, but its error is the generic default classification rather
than a dedicated validation error. -/
theorem makeRequest_client_error_single_attempt
    (isDev : Bool) (ra rd : Nat) (outcomes : Nat → AttemptOutcome)
    (status : Nat) (data : Body)
    (h1 : outcomes 1 = .response status data)
    (h2 : status = 400 ∨ status = 401 ∨ status = 403 ∨ status = 404 ∨
          status = 409 ∨ status = 422) :
    makeRequest isDev ra rd outcomes =
      ⟨.error { message :=
        if status = 400 then "Bad Request: " ++ jsOrStr data.message "Invalid request parameters"
        else if status = 401 then "Authentication failed: Please check your API token"
        else if status = 403 then "Access denied: Insufficient permissions for this resource"
        else if status = 404 then "Resource not found: The requested item does not exist or is not accessible"
        else if status = 409 then "Conflict: " ++ jsOrStr data.message "Resource conflict"
        else "API Error (" ++ toString status ++ "): "
          ++ jsOrStr data.message "Unknown error occurred" }, 1, []⟩ := by
  rcases h2 with rfl | rfl | rfl | rfl | rfl | rfl <;> rw [makeRequest_run, h1] <;> rfl

/-- C4 witness: the theorem applied to a 404 answer. -/
theorem makeRequest_client_error_single_attempt_witness :
    makeRequest false 3 1000 (fun _ => .response 404 {}) =
      ⟨.error { message :=
        "Resource not found: The requested item does not exist or is not accessible" },
       1, []⟩ := by
  exact makeRequest_client_error_single_attempt false 3 1000
    (fun _ => .response 404 {}) 404 {} rfl (by decide)

/-- C5 (counterexample): with the default configuration (3 retry attempts,
1000 ms base delay) and every attempt answered 503, the run inserts no
backoff delay at all — not the claimed schedule of 1000, 2000, 3000 ms —
because the retry branch (and with it `delay(retryDelay * attempt)`) is
never reached. -/
theorem persistent503_no_backoff_delays :
    (makeRequest false 3 1000 (fun _ => .response 503 {})).delays = [] ∧
    (makeRequest false 3 1000 (fun _ => .response 503 {})).delays ≠ [1000, 2000, 3000] := by
  constructor <;> decide

/-- C5 (amended): no run of `makeRequest` ever awaits a backoff delay: the
formatted errors reaching the catch block carry no `response`, so the
retry condition guarding the delay is never true, for any configuration
and any attempt outcomes. -/
theorem makeRequest_delays_always_empty
    (isDev : Bool) (ra rd : Nat) (outcomes : Nat → AttemptOutcome) :
    (makeRequest isDev ra rd outcomes).delays = [] := by
  rw [makeRequest_run]

/-- C6 (counterexample): a server answering 429 with body
`{"code":"rate_limited","message":"slow down"}` on all attempts makes the
client raise a plain `Error` whose only payload is the fixed rate-limit
message: it has no `code` and no `response`/status property (both `none`
in the record), and its message does not contain the upstream code
`rate_limited`. -/
theorem rate_limited_error_carries_no_code :
    (makeRequest false 3 1000
      (fun _ => .response 429 ⟨some "rate_limited", some "slow down"⟩)).result =
      .error { message := "Rate limit exceeded: Please wait before making more requests",
               code := none, response := none } ∧
    containsSubstr "Rate limit exceeded: Please wait before making more requests"
      "rate_limited" = false := by
  refine ⟨rfl, ?_⟩
  decide

/-- C6 (amended): every classified error built by `formatError` is a plain
`Error` carrying only a human-readable message — its `code` and `response`
properties are absent — and a 429 response yields the fixed rate-limit
message whatever machine-readable code or message the body supplied. -/
theorem formatted_errors_carry_message_only
    (isDev : Bool) (e : JsError) (msg : String) (data : Body) :
    (formatError isDev e).code = none ∧ (formatError isDev e).response = none ∧
    formatError isDev { message := msg, response := some ⟨429, data⟩ } =
      { message := "Rate limit exceeded: Please wait before making more requests" } := by
  refine ⟨?_, ?_, rfl⟩ <;> cases h : e.response <;> simp [formatError, h]

/-- C7 (counterexample): `setToken("")` does not fail: the body is three
assignments and contains no validation, so the call completes normally
(the embedding is a total function into `ClientState`, with no error
outcome), installing the empty token and the header `Bearer ` — no
`ConfigError` exists anywhere in the module. -/
theorem setToken_empty_token_accepted :
    setToken "" initialClient =
      { token := some "", version := "2022-06-28",
        contentTypeHeader := some "application/json",
        authorizationHeader := some "Bearer ",
        notionVersionHeader := some "2022-06-28",
        networkAttempts := 0 } := rfl

/-- C7 (amended): `setToken` stores the token and sets the default
`Authorization` and `Notion-Version` headers used by all subsequent
requests, performs no network request, and accepts any token — the empty
string included — without failing. -/
theorem setToken_sets_credentials_no_network (t : String) (s : ClientState) :
    (setToken t s).token = some t ∧
    (setToken t s).authorizationHeader = some ("Bearer " ++ t) ∧
    (setToken t s).notionVersionHeader = some s.version ∧
    (setToken t s).version = s.version ∧
    (setToken t s).networkAttempts = s.networkAttempts :=
  ⟨rfl, rfl, rfl, rfl, rfl⟩

end ClaimTheoremsB

section ClaimTheoremsC

/-- C8 (counterexample): immediately after `set(k, v, ttl = 0)` (same
clock reading, 100), `get(k)` returns the value, not absent: in
`expiresIn ? Date.now() + expiresIn : null` a zero time-to-live is falsy,
so the entry is written with `expires = null` and never expires. -/
theorem zero_ttl_entry_survives :
    (StorageManager.get
      (StorageManager.set ([] : StorageManager.Store String) "k" "v" (some 0) 100 none true).2
      "k" 100).1 = some "v" ∧
    ¬ ((StorageManager.get
      (StorageManager.set ([] : StorageManager.Store String) "k" "v" (some 0) 100 none true).2
      "k" 100).1 = none) := by
  constructor <;> decide

/-- C8 (amended): an entry stored with `ttl = 0` carries no expiration at
all (`expires = null`), so `get` returns its value at every later read
time, over any prior store contents. -/
theorem zero_ttl_set_never_expires (α : Type) (store : StorageManager.Store α)
    (k : String) (v : α) (t t2 : Nat) :
    (StorageManager.get (StorageManager.set store k v (some 0) t none true).2 k t2).1 =
      some v := by
  have hset : (StorageManager.set store k v (some 0) t none true).2 =
      StorageManager.setItem store k { value := v, timestamp := some t, expires := none } := rfl
  have hlook := StorageManager.lookupItem_setItem_self store k
    ({ value := v, timestamp := some t, expires := none } : StorageManager.StoredItem α)
  simp [StorageManager.get, hset, hlook, StorageManager.expiredAt, jsTruthyNum]

/-- C9: for a positive ttl, `get` returns the stored value at any read
time strictly before `t + ttl` and absent at any read time strictly after;
in the expired case the value is withheld even though the entry was still
physically present in the store (last conjunct), and the access purges it
(middle conjunct). -/
theorem cache_ttl_expiry_semantics (α : Type) (store : StorageManager.Store α)
    (k : String) (v : α) (ttl t t2 : Nat) (httl : 0 < ttl) :
    (t2 < t + ttl →
      (StorageManager.get (StorageManager.set store k v (some ttl) t none true).2 k t2).1 =
        some v) ∧
    (t + ttl < t2 →
      (StorageManager.get (StorageManager.set store k v (some ttl) t none true).2 k t2).1 =
        none ∧
      StorageManager.lookupItem
        (StorageManager.get (StorageManager.set store k v (some ttl) t none true).2 k t2).2 k =
        none ∧
      StorageManager.lookupItem (StorageManager.set store k v (some ttl) t none true).2 k =
        some { value := v, timestamp := some t, expires := some (t + ttl) }) := by
  have htr : jsTruthyNum (some ttl) = true := by
    simp [jsTruthyNum]
    omega
  have hset : (StorageManager.set store k v (some ttl) t none true).2 =
      StorageManager.setItem store k
        { value := v, timestamp := some t, expires := some (t + ttl) } := by
    simp [StorageManager.set, htr]
  have hlook := StorageManager.lookupItem_setItem_self store k
    ({ value := v, timestamp := some t, expires := some (t + ttl) } :
      StorageManager.StoredItem α)
  constructor
  · intro hlt
    have hexp : StorageManager.expiredAt (some (t + ttl)) t2 = false := by
      simp [StorageManager.expiredAt, jsTruthyNum]
      omega
    simp [StorageManager.get, hset, hlook, hexp]
  · intro hgt
    have hexp : StorageManager.expiredAt (some (t + ttl)) t2 = true := by
      simp [StorageManager.expiredAt, jsTruthyNum]
      omega
    refine ⟨?_, ?_, ?_⟩
    · simp [StorageManager.get, hset, hlook, hexp]
    · simp [StorageManager.get, hset, hlook, hexp]
      exact StorageManager.lookupItem_removeItem_self _ k
    · rw [hset]
      exact hlook

/-- C9 witness: the theorem applied at ttl 10, write time 100, and the two
read times 105 (before expiry) and 111 (after expiry). -/
theorem cache_ttl_expiry_semantics_witness :
    (StorageManager.get
      (StorageManager.set ([] : StorageManager.Store String) "k" "v" (some 10) 100 none true).2
      "k" 105).1 = some "v" ∧
    (StorageManager.get
      (StorageManager.set ([] : StorageManager.Store String) "k" "v" (some 10) 100 none true).2
      "k" 111).1 = none :=
  ⟨(cache_ttl_expiry_semantics String [] "k" "v" 10 100 105 (by decide)).1 (by decide),
   ((cache_ttl_expiry_semantics String [] "k" "v" 10 100 111 (by decide)).2 (by decide)).1⟩

/-- C10: when the first write throws `QuotaExceededError` and the bare
retry write after cleanup succeeds, `set` reports success and the entry it
wrote holds only the value — no `expires` and no `timestamp` — so `get`
returns that value at every later time, whatever ttl the caller
requested. -/
theorem quota_fallback_entry_never_expires (α : Type)
    (store : StorageManager.Store α) (k : String) (v : α)
    (expiresIn : Option Nat) (t : Nat) :
    (StorageManager.set store k v expiresIn t (some "QuotaExceededError") true).1 = true ∧
    StorageManager.lookupItem
      (StorageManager.set store k v expiresIn t (some "QuotaExceededError") true).2 k =
      some { value := v, timestamp := none, expires := none } ∧
    ∀ t2 : Nat,
      (StorageManager.get
        (StorageManager.set store k v expiresIn t (some "QuotaExceededError") true).2
        k t2).1 = some v := by
  have hset : StorageManager.set store k v expiresIn t (some "QuotaExceededError") true =
      (true, StorageManager.setItem (StorageManager.cleanup store t) k
        { value := v, timestamp := none, expires := none }) := by
    simp [StorageManager.set]
  have hlook := StorageManager.lookupItem_setItem_self (StorageManager.cleanup store t) k
    ({ value := v, timestamp := none, expires := none } : StorageManager.StoredItem α)
  refine ⟨by rw [hset], ?_, ?_⟩
  · rw [hset]
    exact hlook
  · intro t2
    simp [StorageManager.get, hset, hlook, StorageManager.expiredAt, jsTruthyNum]

end ClaimTheoremsC
